import Mathlib

/-!
Verification development for the multipart form builder of this repository
(src/unnamed/part_000: DefaultFormBuilder over Go's mime/multipart.Writer)
and the image-edit endpoints driving it (src/image.go: CreateEditImage,
CreateMultiEditImage).

Modelling conventions:
* Byte streams (the output sink's contents, reader contents, field values)
  are List Char / String. The characters the scanned code paths branch on
  are all ASCII, where Go's byte-level and rune-level scans agree.
* The output sink is the in-memory bytes.Buffer the endpoints use: writes to
  it never fail, and readers are fully available, so io.Copy and fmt.Fprintf
  always succeed. The only error the embedded builder can return is the
  "filename cannot be empty" validation error of createFormFile.
* multipart.NewWriter picks a random hex boundary at construction;
  randomness is modelled by taking the boundary as a parameter.
* Go library collaborators used by the builder (mime.ParseMediaType,
  filepath.Base, strings.NewReplacer, mime/multipart.Writer) are embedded
  from their stdlib sources, reduced to the data the builder consumes.
-/

def crlf : List Char := ['\r', '\n']

def twoDash : List Char := ['-', '-']

/-- Go unicode.IsSpace: ASCII whitespace, NEL, NBSP and the Unicode
space separators. -/
def goIsSpace (c : Char) : Bool :=
  c = ' ' || c = '\t' || c = '\n' || c.val = 11 || c.val = 12 || c = '\r' ||
  c.val = 0x85 || c.val = 0xA0 || c.val = 0x1680 ||
  (0x2000 ≤ c.val && c.val ≤ 0x200A) ||
  c.val = 0x2028 || c.val = 0x2029 || c.val = 0x202F || c.val = 0x205F ||
  c.val = 0x3000

/-- Go strings.TrimLeftFunc with unicode.IsSpace. -/
def trimLeftSpace (l : List Char) : List Char := l.dropWhile goIsSpace

/-- Go strings.TrimSpace. -/
def trimSpace (l : List Char) : List Char :=
  ((l.dropWhile goIsSpace).reverse.dropWhile goIsSpace).reverse

/-- Go mime.isTSpecial. -/
def isTSpecial (c : Char) : Bool := ("()<>@,;:\\\"/[]?=".data).contains c

/-- Go mime.isTokenChar: any US-ASCII character except space, controls and
tspecials. -/
def isTokenChar (c : Char) : Bool := 0x20 < c.val && c.val < 0x7f && !isTSpecial c

/-- Go mime.consumeToken: the longest run of token characters and the
remainder (empty token when the input does not start with one). -/
def consumeToken (v : List Char) : List Char × List Char :=
  (v.takeWhile isTokenChar, v.dropWhile isTokenChar)

/-- Go mime.checkMediaTypeDisposition as a Boolean validity check:
token, optionally a slash and a second token, nothing after. -/
def checkMediaTypeDisposition (s : List Char) : Bool :=
  let t := consumeToken s
  if t.1 = [] then false
  else if t.2 = [] then true
  else
    match t.2 with
    | '/' :: rest =>
        let t2 := consumeToken rest
        if t2.1 = [] then false else t2.2 = []
    | _ => false

/-- The quoted-string scan inside Go mime.consumeValue. A backslash before a
tspecial escapes it; a bare CR or LF, or a missing closing quote, fails and
returns the whole original input as the rest. -/
def qsLoop (orig : List Char) (acc : List Char) : List Char → List Char × List Char
  | [] => ([], orig)
  | [c] =>
    if c = '"' then (acc.reverse, [])
    else if c = '\r' || c = '\n' then ([], orig)
    else qsLoop orig (c :: acc) []
  | c :: c2 :: rest2 =>
    if c = '"' then (acc.reverse, c2 :: rest2)
    else if c = '\r' || c = '\n' then ([], orig)
    else if c = '\\' then
      (if isTSpecial c2 then qsLoop orig (c2 :: acc) rest2
       else qsLoop orig (c :: acc) (c2 :: rest2))
    else qsLoop orig (c :: acc) (c2 :: rest2)

/-- Go mime.consumeValue: a bare token, or a quoted string. -/
def consumeValue (v : List Char) : List Char × List Char :=
  match v with
  | [] => ([], [])
  | c :: rest => if c ≠ '"' then consumeToken v else qsLoop v [] rest

/-- Go mime.consumeMediaParam: parse one ; key = value group; on failure the
key is empty and the rest is the original input. -/
def consumeMediaParam (v : List Char) : List Char × List Char × List Char :=
  match trimLeftSpace v with
  | ';' :: r2 =>
    let t := consumeToken (trimLeftSpace r2)
    let param := t.1.map Char.toLower
    if param = [] then ([], [], v)
    else
      match trimLeftSpace t.2 with
      | '=' :: r5 =>
        let r6 := trimLeftSpace r5
        let cv := consumeValue r6
        if cv.1 = [] && cv.2 = r6 then ([], [], v)
        else (param, cv.1, cv.2)
      | _ => ([], [], v)
  | _ => ([], [], v)

/-- Association-list lookup modelling Go map access keyed by the full
parameter name. -/
def assocFind (k : List Char) : List (List Char × List Char) → Option (List Char)
  | [] => none
  | p :: t => if p.1 = k then some p.2 else assocFind k t

/-- The parameter loop of Go mime.ParseMediaType, reduced to its success bit.
In the Go source a parameter whose name contains a star is stored in
continuation[baseName] keyed by its full name while the others go into params
keyed by the full name, so duplicate detection keys on the full parameter
name in every case; seen models exactly that. Each successful iteration
consumes at least the leading semicolon, so the remaining input shrinks
strictly and a fuel of length + 1 never runs out; the fuel-exhausted branch
is unreachable. -/
def paramLoop : Nat → List (List Char × List Char) → List Char → Bool
  | 0, _, _ => false
  | fuel + 1, seen, v =>
    let w := trimLeftSpace v
    if w = [] then true
    else
      let kvr := consumeMediaParam w
      if kvr.1 = [] then
        trimSpace kvr.2.2 = [';']
      else
        match assocFind kvr.1 seen with
        | some v0 => if v0 = kvr.2.1 then paramLoop fuel seen kvr.2.2 else false
        | none => paramLoop fuel ((kvr.1, kvr.2.1) :: seen) kvr.2.2

/-- Go mime.ParseMediaType, reduced to what the builder consumes: some
mediatype (the lower-cased, trimmed text before the first semicolon) when
ParseMediaType returns a nil error, none otherwise. The parameter map itself
is discarded by the call site. Char.toLower lowers ASCII letters; Go's
ToLower also folds non-ASCII letters, which cannot occur inside a valid
media type. -/
def parseMediaType (v : String) : Option String :=
  let l := v.data
  let base := l.takeWhile (fun c => c ≠ ';')
  let mediatype := trimSpace (base.map Char.toLower)
  if checkMediaTypeDisposition mediatype then
    let rest := l.dropWhile (fun c => c ≠ ';')
    if paramLoop (rest.length + 1) [] rest then some (String.mk mediatype) else none
  else none

/-- Go path/filepath.Base on a Unix path: "." for the empty path, trailing
slashes stripped, the text after the last slash, "/" when only slashes
remain. The volume name is empty on Unix. -/
def filepathBase (path : String) : String :=
  if path = "" then "."
  else
    let l := (path.data.reverse.dropWhile (fun c => c = '/')).reverse
    let last := (l.reverse.takeWhile (fun c => c ≠ '/')).reverse
    if last = [] then "/" else String.mk last

/-- One step of Go strings.NewReplacer("\\", "\\\\", "\"", "\\\""): both
patterns are single characters, so the replacer is a character map. -/
def escapeQuotesChar (c : Char) : List Char :=
  if c = '\\' then ['\\', '\\'] else if c = '"' then ['\\', '"'] else [c]

/-- Go escapeQuotes (src/unnamed/part_000 line 39). -/
def escapeQuotes (s : String) : String :=
  String.mk ((s.data.map escapeQuotesChar).flatten)

/-- Decoder for quoted-string escaping: a backslash takes the following
character literally. -/
def unescapeQuotesList : List Char → List Char
  | [] => []
  | [c] => [c]
  | c :: c2 :: rest =>
    if c = '\\' then c2 :: unescapeQuotesList rest
    else c :: unescapeQuotesList (c2 :: rest)

def unescapeQuotes (s : String) : String := String.mk (unescapeQuotesList s.data)

/-- Go mime/multipart.Writer: output is what has been written to the sink so
far (an in-memory buffer that never fails), hasLastPart models
lastpart != nil. The Writer keeps no closed flag. -/
structure MultipartWriter where
  output : List Char
  boundary : String
  hasLastPart : Bool
deriving DecidableEq

/-- Go multipart.NewWriter: empty sink, the random boundary is a parameter,
no last part yet. -/
def multipartNewWriter (boundary : String) : MultipartWriter :=
  { output := [], boundary := boundary, hasLastPart := false }

/-- Header block as written by Go multipart CreatePart: one "Key: value" CRLF
line per entry. CreatePart sorts the header keys; every call site below
already lists its keys in sorted order (Content-Disposition sorts before
Content-Type). -/
def hdrBytes (h : List (String × String)) : List Char :=
  (h.map (fun kv => kv.1.data ++ (": ").data ++ kv.2.data ++ crlf)).flatten

/-- Go multipart Writer.CreatePart: boundary line (with a leading CRLF when a
previous part exists), header block, blank line; afterwards a part is open.
Sink writes never fail in this model, so there is no error case. -/
def createPart (w : MultipartWriter) (h : List (String × String)) : MultipartWriter :=
  { output := w.output ++ (if w.hasLastPart then crlf else []) ++ twoDash ++
      w.boundary.data ++ crlf ++ hdrBytes h ++ crlf,
    boundary := w.boundary, hasLastPart := true }

/-- io.Copy of a fully available reader into the open part: appends the bytes
to the sink. -/
def partWrite (w : MultipartWriter) (data : List Char) : MultipartWriter :=
  { w with output := w.output ++ data }

/-- Go multipart Writer.Close: unconditionally appends CRLF --boundary-- CRLF
and clears lastpart. Nothing records that the writer was closed. -/
def writerClose (w : MultipartWriter) : MultipartWriter :=
  { output := w.output ++ crlf ++ twoDash ++ w.boundary.data ++ twoDash ++ crlf,
    boundary := w.boundary, hasLastPart := false }

/-- The boundary as Go multipart FormDataContentType renders it: quoted iff
it contains one of the RFC 2045 tspecials or a space. -/
def goQuoteBoundary (b : String) : String :=
  if ("()<>@,;:\\\"/[]?= ".data).any (fun c => b.data.contains c) then
    "\"" ++ b ++ "\""
  else b

/-- Go multipart Writer.FormDataContentType. -/
def formDataContentType (w : MultipartWriter) : String :=
  "multipart/form-data; boundary=" ++ goQuoteBoundary w.boundary

/-- Go multipart Writer.CreateFormFile: Content-Disposition carrying the
escaped field name and the escaped filename exactly as supplied (no path
stripping), plus Content-Type application/octet-stream. -/
def multipartCreateFormFile (w : MultipartWriter) (fieldname filename : String) :
    MultipartWriter :=
  createPart w
    [("Content-Disposition",
       "form-data; name=\"" ++ escapeQuotes fieldname ++ "\"; filename=\"" ++
         escapeQuotes filename ++ "\""),
     ("Content-Type", "application/octet-stream")]

/-- Header of a plain field part (Go multipart CreateFormField). -/
def fieldHeader (fieldname : String) : List (String × String) :=
  [("Content-Disposition", "form-data; name=\"" ++ escapeQuotes fieldname ++ "\"")]

/-- Go multipart Writer.WriteField: plain field header, then the value as the
part body. -/
def multipartWriteField (w : MultipartWriter) (fieldname value : String) :
    MultipartWriter :=
  partWrite (createPart w (fieldHeader fieldname)) value.data

/-- src/unnamed/part_000 line 23: DefaultFormBuilder holds only the multipart
writer. -/
structure DefaultFormBuilder where
  writer : MultipartWriter
deriving DecidableEq

/-- src/unnamed/part_000 line 27: NewFormBuilder wraps multipart.NewWriter on
the caller's (empty) sink; the writer's random boundary is a parameter. -/
def NewFormBuilder (boundary : String) : DefaultFormBuilder :=
  { writer := multipartNewWriter boundary }

/-- Go *os.File as the builder sees it: Name() returns the path the file was
opened with, and the file's readable contents. -/
structure GoFile where
  name : String
  content : String
deriving DecidableEq

/-- The header CreateFormFileReaderWithContentType builds
(src/unnamed/part_000 lines 55-70): Content-Disposition with the escaped
field name and the escaped filepath.Base of the filename; Content-Type is
added exactly when mime.ParseMediaType accepts contentType, carrying the
parsed media type. -/
def fileReaderHeader (fieldname filename contentType : String) :
    List (String × String) :=
  [("Content-Disposition",
     "form-data; name=\"" ++ escapeQuotes fieldname ++ "\"; filename=\"" ++
       escapeQuotes (filepathBase filename) ++ "\"")]
  ++ (match parseMediaType contentType with
      | some mt => [("Content-Type", mt)]
      | none => [])

/-- src/unnamed/part_000 line 54: CreateFormFileReaderWithContentType.
r stands for the reader's full contents. Returns the Go (error, receiver)
pair; with the infallible in-memory sink the error is always none. -/
def DefaultFormBuilder.CreateFormFileReaderWithContentType
    (fb : DefaultFormBuilder) (fieldname r filename contentType : String) :
    Option String × DefaultFormBuilder :=
  (none,
   { writer :=
       partWrite (createPart fb.writer (fileReaderHeader fieldname filename contentType))
         r.data })

/-- src/unnamed/part_000 line 46: CreateFormFileReader delegates with an
empty content type. -/
def DefaultFormBuilder.CreateFormFileReader
    (fb : DefaultFormBuilder) (fieldname r filename : String) :
    Option String × DefaultFormBuilder :=
  fb.CreateFormFileReaderWithContentType fieldname r filename ""

/-- src/unnamed/part_000 line 85: the lower-case createFormFile helper:
reject an empty filename before writing anything, otherwise delegate to
multipart CreateFormFile and copy the reader. -/
def DefaultFormBuilder.createFormFile
    (fb : DefaultFormBuilder) (fieldname r filename : String) :
    Option String × DefaultFormBuilder :=
  if filename = "" then (some "filename cannot be empty", fb)
  else (none, { writer := partWrite (multipartCreateFormFile fb.writer fieldname filename) r.data })

/-- src/unnamed/part_000 line 33: CreateFormFile passes file.Name() as the
filename, unchanged. -/
def DefaultFormBuilder.CreateFormFile
    (fb : DefaultFormBuilder) (fieldname : String) (file : GoFile) :
    Option String × DefaultFormBuilder :=
  fb.createFormFile fieldname file.content file.name

/-- src/unnamed/part_000 line 103: WriteField delegates to the multipart
writer. -/
def DefaultFormBuilder.WriteField
    (fb : DefaultFormBuilder) (fieldname value : String) :
    Option String × DefaultFormBuilder :=
  (none, { writer := multipartWriteField fb.writer fieldname value })

/-- src/unnamed/part_000 line 107: Close delegates to the multipart writer. -/
def DefaultFormBuilder.Close (fb : DefaultFormBuilder) :
    Option String × DefaultFormBuilder :=
  (none, { writer := writerClose fb.writer })

/-- src/unnamed/part_000 line 111: FormDataContentType delegates to the
multipart writer. -/
def DefaultFormBuilder.FormDataContentType (fb : DefaultFormBuilder) : String :=
  formDataContentType fb.writer

/-- One append call on the builder: the reader-based file variant or a plain
field. -/
inductive FormOp where
  | fileReader (fieldname r filename contentType : String)
  | writeField (fieldname value : String)
deriving DecidableEq

def applyOp (fb : DefaultFormBuilder) : FormOp → DefaultFormBuilder
  | .fileReader fn r f ct => (fb.CreateFormFileReaderWithContentType fn r f ct).2
  | .writeField fn v => (fb.WriteField fn v).2

def runOps (fb : DefaultFormBuilder) (ops : List FormOp) : DefaultFormBuilder :=
  ops.foldl applyOp fb

/-- The header and body of the part one append op produces. -/
def opPart : FormOp → List (String × String) × String
  | .fileReader fn r f ct => (fileReaderHeader fn f ct, r)
  | .writeField fn v => (fieldHeader fn, v)

/-- One encoded part without the CRLF that separates it from the next
boundary line. -/
def chunkCore (b : String) (p : List (String × String) × String) : List Char :=
  twoDash ++ b.data ++ crlf ++ hdrBytes p.1 ++ crlf ++ p.2.data

/-- One separately encoded part as in the spec's wire format: boundary line,
header block, blank line, body, CRLF. -/
def partChunk (b : String) (p : List (String × String) × String) : List Char :=
  chunkCore b p ++ crlf

/-- The spec's encoded multipart stream: the encoded parts one after another
in the given order, then the terminal marker. -/
def multipartBody (b : String) (parts : List (List (String × String) × String)) :
    List Char :=
  (parts.map (partChunk b)).flatten ++ twoDash ++ b.data ++ twoDash ++ crlf

/-- Any state-changing builder call, for stating lifecycle invariants. -/
inductive BuilderOp where
  | fileReader (fieldname r filename contentType : String)
  | formFile (fieldname : String) (file : GoFile)
  | writeField (fieldname value : String)
  | closeOp
deriving DecidableEq

def applyBuilderOp (fb : DefaultFormBuilder) : BuilderOp → DefaultFormBuilder
  | .fileReader fn r f ct => (fb.CreateFormFileReaderWithContentType fn r f ct).2
  | .formFile fn file => (fb.CreateFormFile fn file).2
  | .writeField fn v => (fb.WriteField fn v).2
  | .closeOp => (fb.Close).2

def runBuilderOps (fb : DefaultFormBuilder) (ops : List BuilderOp) : DefaultFormBuilder :=
  ops.foldl applyBuilderOp fb

/-- List-contains helper: does the first list occur at the start of the
second? -/
def beginsWith : List Char → List Char → Bool
  | [], _ => true
  | _ :: _, [] => false
  | a :: as, b :: bs => a = b && beginsWith as bs

/-- Does the first list occur contiguously anywhere inside the second? -/
def containsSeq (needle : List Char) : List Char → Bool
  | [] => beginsWith needle []
  | c :: rest => beginsWith needle (c :: rest) || containsSeq needle rest

/-- src/image.go line 136: ImageEditRequest; the image and mask readers are
modelled by their contents, the nilable mask by Option. -/
structure ImageEditRequest where
  image : String
  mask : Option String
  prompt : String
  model : String
  n : Int
  size : String
  responseFormat : String
  quality : String
  user : String
deriving DecidableEq

/-- src/image.go line 210: MultiImageEditRequest. -/
structure MultiImageEditRequest where
  images : List String
  prompt : String
  model : String
  n : Int
  size : String
  responseFormat : String
  quality : String
  user : String
deriving DecidableEq

/-- The exact sequence of builder append calls CreateEditImage makes
(src/image.go lines 149-188): the image with content type image/png and an
empty filename, the mask (empty content type) when present, then prompt, n
(via strconv.Itoa), size and, only when non-empty, response_format. -/
def createEditImageOps (req : ImageEditRequest) : List FormOp :=
  [FormOp.fileReader "image" req.image "" "image/png"]
  ++ (match req.mask with
      | some m => [FormOp.fileReader "mask" m "" ""]
      | none => [])
  ++ [FormOp.writeField "prompt" req.prompt,
      FormOp.writeField "n" (toString req.n),
      FormOp.writeField "size" req.size]
  ++ (if req.responseFormat = "" then []
      else [FormOp.writeField "response_format" req.responseFormat])

/-- The multipart body and enclosing Content-Type header value an edit
endpoint sends. -/
structure HTTPForm where
  body : List Char
  contentType : String
deriving DecidableEq

/-- The form CreateEditImage builds and closes before issuing its request. -/
def createEditImageForm (boundary : String) (req : ImageEditRequest) : HTTPForm :=
  let fb := ((runOps (NewFormBuilder boundary) (createEditImageOps req)).Close).2
  { body := fb.writer.output, contentType := fb.FormDataContentType }

/-- Outcome of CreateMultiEditImage up to the HTTP layer: with no images the
Go function hits the early return, yielding the zero-valued ImageResponse and
a nil error without creating the buffer, the builder or the request;
otherwise a form is built and a request carrying it is issued. -/
inductive MultiEditOutcome where
  | noRequest
  | request (form : HTTPForm)
deriving DecidableEq

/-- src/image.go line 227: the ImageEditRequest handed to CreateEditImage for
a single image; its mask is nil because MultiImageEditRequest has none. -/
def toImageEditRequest (req : MultiImageEditRequest) (img : String) : ImageEditRequest :=
  { image := img, mask := none, prompt := req.prompt, model := req.model,
    n := req.n, size := req.size, responseFormat := req.responseFormat,
    quality := req.quality, user := req.user }

/-- The append calls of the multi-image branch (src/image.go lines 242-269):
one image[] file part per image in slice order, then prompt, n, size and,
only when non-empty, response_format. -/
def createMultiEditImageOps (req : MultiImageEditRequest) : List FormOp :=
  (req.images.map (fun img => FormOp.fileReader "image[]" img "" "image/png"))
  ++ [FormOp.writeField "prompt" req.prompt,
      FormOp.writeField "n" (toString req.n),
      FormOp.writeField "size" req.size]
  ++ (if req.responseFormat = "" then []
      else [FormOp.writeField "response_format" req.responseFormat])

/-- src/image.go line 221: CreateMultiEditImage. len(images) < 1 returns at
once with the zero response and nil error; exactly one image delegates to
CreateEditImage; otherwise the multi-image form is built and sent. -/
def CreateMultiEditImage (boundary : String) (req : MultiImageEditRequest) :
    MultiEditOutcome :=
  match req.images with
  | [] => MultiEditOutcome.noRequest
  | [img] => MultiEditOutcome.request (createEditImageForm boundary (toImageEditRequest req img))
  | _ =>
    let fb := ((runOps (NewFormBuilder boundary) (createMultiEditImageOps req)).Close).2
    MultiEditOutcome.request { body := fb.writer.output, contentType := fb.FormDataContentType }

/-- The field name one append op writes into its Content-Disposition. -/
def opFieldName : FormOp → String
  | .fileReader fn _ _ _ => fn
  | .writeField fn _ => fn

def opsFieldNames (ops : List FormOp) : List String := ops.map opFieldName

example : parseMediaType "image/png" = some "image/png" := by decide
example : parseMediaType "not/a/valid/type;;;" = none := by decide
example : parseMediaType "" = none := by decide
example : parseMediaType "text/plain; charset=utf-8" = some "text/plain" := by decide
example : filepathBase "" = "." := by decide
example : filepathBase "dir/img.png" = "img.png" := by decide
example : filepathBase "/" = "/" := by decide
example : escapeQuotes "a\\\"b" = "a\\\\\\\"b" := by decide
example : unescapeQuotes (escapeQuotes "a\\\"b") = "a\\\"b" := by decide

example :
    (((NewFormBuilder "B").CreateFormFileReader "image" "DATA" "").2).writer.output
      = ("--B\r\nContent-Disposition: form-data; name=\"image\"; filename=\".\"\r\n\r\nDATA").data := by
  decide

example :
    ((((NewFormBuilder "B").WriteField "prompt" "a cat").2.Close).2).writer.output
      = ("--B\r\nContent-Disposition: form-data; name=\"prompt\"\r\n\r\na cat\r\n--B--\r\n").data := by
  decide

example :
    (NewFormBuilder "B").FormDataContentType = "multipart/form-data; boundary=B" := by decide

example :
    (((NewFormBuilder "B").CreateFormFile "image" ⟨"dir/img.png", "PNG"⟩).2).writer.output
      = ("--B\r\nContent-Disposition: form-data; name=\"image\"; filename=\"dir/img.png\"\r\nContent-Type: application/octet-stream\r\n\r\nPNG").data := by
  decide

/-- Effect of one append op: the sink grows by exactly one encoded part
(with a separating CRLF when a part was already open), the boundary is
unchanged, and a part is open afterwards. -/
theorem applyOp_spec (fb : DefaultFormBuilder) (op : FormOp) :
    (applyOp fb op).writer.output
      = fb.writer.output ++ (if fb.writer.hasLastPart then crlf else [])
          ++ chunkCore fb.writer.boundary (opPart op)
    ∧ (applyOp fb op).writer.boundary = fb.writer.boundary
    ∧ (applyOp fb op).writer.hasLastPart = true := by
  cases op <;>
    simp [applyOp, DefaultFormBuilder.CreateFormFileReaderWithContentType,
      DefaultFormBuilder.WriteField, multipartWriteField, partWrite, createPart,
      chunkCore, opPart, List.append_assoc]

/-- Running a list of append ops from a state with an open part appends one
CRLF-separated encoded part per op, in list order. -/
theorem runOps_spec (ops : List FormOp) :
    ∀ fb : DefaultFormBuilder, fb.writer.hasLastPart = true →
      (runOps fb ops).writer.output
        = fb.writer.output
            ++ (ops.map (fun op => crlf ++ chunkCore fb.writer.boundary (opPart op))).flatten
      ∧ (runOps fb ops).writer.boundary = fb.writer.boundary
      ∧ (runOps fb ops).writer.hasLastPart = true := by
  induction ops with
  | nil => intro fb h; exact ⟨by simp [runOps], rfl, h⟩
  | cons op rest ih =>
    intro fb h
    have ha := applyOp_spec fb op
    have hb := ih (applyOp fb op) ha.2.2
    have hrun : runOps fb (op :: rest) = runOps (applyOp fb op) rest := rfl
    refine ⟨?_, ?_, by rw [hrun]; exact hb.2.2⟩
    · rw [hrun, hb.1, ha.1, ha.2.1, h]
      simp [List.append_assoc]
    · rw [hrun, hb.2.1, ha.2.1]

/-- No builder call changes the boundary chosen at construction. -/
theorem applyBuilderOp_boundary (fb : DefaultFormBuilder) (op : BuilderOp) :
    (applyBuilderOp fb op).writer.boundary = fb.writer.boundary := by
  cases op <;>
    simp [applyBuilderOp, DefaultFormBuilder.CreateFormFileReaderWithContentType,
      DefaultFormBuilder.CreateFormFile, DefaultFormBuilder.createFormFile,
      DefaultFormBuilder.WriteField, DefaultFormBuilder.Close, multipartWriteField,
      multipartCreateFormFile, partWrite, createPart, writerClose]
  case formFile fn file =>
    split <;> simp [partWrite, multipartCreateFormFile, createPart]

theorem runBuilderOps_boundary (ops : List BuilderOp) :
    ∀ fb : DefaultFormBuilder,
      (runBuilderOps fb ops).writer.boundary = fb.writer.boundary := by
  induction ops with
  | nil => intro fb; rfl
  | cons op rest ih =>
    intro fb
    have : runBuilderOps fb (op :: rest) = runBuilderOps (applyBuilderOp fb op) rest := rfl
    rw [this, ih, applyBuilderOp_boundary]

/-- Moving a separator from before each block to after each block. -/
theorem flatten_sep_rotate {α : Type} (f : α → List Char) (sep X : List Char) :
    ∀ ps : List α,
      (ps.map (fun p => sep ++ f p)).flatten ++ (sep ++ X)
        = sep ++ ((ps.map (fun p => f p ++ sep)).flatten ++ X) := by
  intro ps
  induction ps with
  | nil => simp
  | cons p t ih =>
    simp only [List.map_cons, List.flatten_cons, List.append_assoc]
    simp only [List.append_assoc] at ih
    rw [ih]

/-- The escaping of src/unnamed/part_000 is undone by the standard
quoted-string decoder. -/
theorem unescape_escape_list :
    ∀ l : List Char, unescapeQuotesList ((l.map escapeQuotesChar).flatten) = l := by
  intro l
  induction l with
  | nil => rfl
  | cons c t ih =>
    have hcons : ∀ (a : Char) (l : List Char), a ≠ '\\' →
        unescapeQuotesList (a :: l) = a :: unescapeQuotesList l := by
      intro a l h
      cases l <;> simp [unescapeQuotesList, h]
    have hbs : ∀ (a : Char) (l : List Char),
        unescapeQuotesList ('\\' :: a :: l) = a :: unescapeQuotesList l := by
      intro a l
      simp [unescapeQuotesList]
    by_cases h1 : c = '\\'
    · subst h1; simp [escapeQuotesChar, hbs, ih]
    · by_cases h2 : c = '"'
      · subst h2; simp [escapeQuotesChar, hbs, ih]
      · simp [escapeQuotesChar, h1, h2, hcons c _ h1, ih]

/-- C1: the spec claims the reader-based file append with filename "" writes
a Content-Disposition containing filename="" (an empty quoted filename). The
code applies filepath.Base to the filename first, and Base of the empty path
is ".", so the part actually carries filename="." and the empty quoted
filename never appears. Concrete evaluation of the embedded code at the
failing input. -/
theorem c1_empty_filename_writes_dot :
    (((NewFormBuilder "XBOUND").CreateFormFileReader "image" "DATA" "").1 = none)
    ∧ (((NewFormBuilder "XBOUND").CreateFormFileReader "image" "DATA" "").2.writer.output
        = ("--XBOUND\r\nContent-Disposition: form-data; name=\"image\"; filename=\".\"\r\n\r\nDATA").data)
    ∧ containsSeq ("filename=\".\"").data
        (((NewFormBuilder "XBOUND").CreateFormFileReader "image" "DATA" "").2.writer.output) = true
    ∧ containsSeq ("filename=\"\"").data
        (((NewFormBuilder "XBOUND").CreateFormFileReader "image" "DATA" "").2.writer.output) = false
    ∧ filepathBase "" = "." := by
  decide

/-- C2 counterexample: on a builder whose Close already succeeded, a second
Close is not rejected: it returns a nil error and writes a second terminal
boundary marker to the sink, and a subsequent field append also returns a nil
error and writes a further part. -/
theorem c2_close_twice_not_rejected :
    (((NewFormBuilder "B").Close).1 = none)
    ∧ ((((NewFormBuilder "B").Close).2.Close).1 = none)
    ∧ ((((NewFormBuilder "B").Close).2.Close).2.writer.output
        = ("\r\n--B--\r\n\r\n--B--\r\n").data)
    ∧ ((((NewFormBuilder "B").Close).2.Close).2.writer.output
        ≠ (((NewFormBuilder "B").Close).2.writer.output))
    ∧ ((((NewFormBuilder "B").Close).2.WriteField "prompt" "a cat").1 = none)
    ∧ ((((NewFormBuilder "B").Close).2.WriteField "prompt" "a cat").2.writer.output
        = ("\r\n--B--\r\n--B\r\nContent-Disposition: form-data; name=\"prompt\"\r\n\r\na cat").data) := by
  decide

/-- C2 amended: the builder records no closed state, so a second Close and
any append after Close are not rejected with a protocol error: each returns a
nil error and writes further bytes to the sink (another terminal marker, or a
further encoded part). -/
theorem c2_amended_use_after_close_succeeds (fb : DefaultFormBuilder) :
    ((fb.Close).1 = none)
    ∧ ((fb.Close).2.writer.output
        = fb.writer.output ++ crlf ++ twoDash ++ fb.writer.boundary.data ++ twoDash ++ crlf)
    ∧ ((fb.Close).2.writer.output ≠ fb.writer.output)
    ∧ (∀ fn v : String,
        (((fb.Close).2.WriteField fn v).1 = none)
        ∧ ((fb.Close).2.WriteField fn v).2.writer.output
            = (fb.Close).2.writer.output ++ chunkCore fb.writer.boundary (fieldHeader fn, v))
    ∧ (∀ fn r f ct : String,
        (((fb.Close).2.CreateFormFileReaderWithContentType fn r f ct).1 = none)
        ∧ ((fb.Close).2.CreateFormFileReaderWithContentType fn r f ct).2.writer.output
            = (fb.Close).2.writer.output
                ++ chunkCore fb.writer.boundary (fileReaderHeader fn f ct, r)) := by
  refine ⟨rfl, rfl, ?_, ?_, ?_⟩
  · intro h
    have hlen := congrArg List.length h
    simp [DefaultFormBuilder.Close, writerClose, crlf, twoDash] at hlen
  · intro fn v
    exact ⟨rfl, by
      simp [DefaultFormBuilder.Close, DefaultFormBuilder.WriteField, writerClose,
        multipartWriteField, partWrite, createPart, chunkCore, List.append_assoc]⟩
  · intro fn r f ct
    exact ⟨rfl, by
      simp [DefaultFormBuilder.Close, DefaultFormBuilder.CreateFormFileReaderWithContentType,
        writerClose, partWrite, createPart, chunkCore, List.append_assoc]⟩

/-- C4: the quoting applied to field names and filenames escapes exactly
backslash and double-quote (backslash doubling, quote preceded by a
backslash), leaves every other character unchanged, and the escaping
round-trips: decoding the escaped string gives back the original. -/
theorem c4_escape_quotes_roundtrip (s : String) (c : Char)
    (h1 : c ≠ '\\') (h2 : c ≠ '"') :
    unescapeQuotes (escapeQuotes s) = s
    ∧ escapeQuotesChar '\\' = ['\\', '\\']
    ∧ escapeQuotesChar '"' = ['\\', '"']
    ∧ escapeQuotesChar c = [c]
    ∧ (escapeQuotes s).data = (s.data.map escapeQuotesChar).flatten := by
  refine ⟨?_, by decide, by decide, by simp [escapeQuotesChar, h1, h2], rfl⟩
  show String.mk (unescapeQuotesList (escapeQuotes s).data) = s
  have : (escapeQuotes s).data = (s.data.map escapeQuotesChar).flatten := rfl
  rw [this, unescape_escape_list]

/-- Witness for C4 at a concrete string containing both a backslash and a
double-quote, and the concrete unescaped character x. -/
theorem c4_escape_quotes_roundtrip_witness :
    unescapeQuotes (escapeQuotes "a\\\"b") = "a\\\"b"
    ∧ escapeQuotesChar '\\' = ['\\', '\\']
    ∧ escapeQuotesChar '"' = ['\\', '"']
    ∧ escapeQuotesChar 'x' = ['x']
    ∧ (escapeQuotes "a\\\"b").data = (("a\\\"b").data.map escapeQuotesChar).flatten :=
  c4_escape_quotes_roundtrip "a\\\"b" 'x' (by decide) (by decide)

/-- C6 counterexample: the filesystem-path variant CreateFormFile writes the
file's full Name() into the Content-Disposition filename: for a file opened
as dir/img.png the header carries filename="dir/img.png", not the final path
component img.png the claim promises (which filepath.Base would give). -/
theorem c6_formfile_keeps_directory :
    ((((NewFormBuilder "B").CreateFormFile "image" ⟨"dir/img.png", "PNG"⟩).1 = none))
    ∧ ((((NewFormBuilder "B").CreateFormFile "image" ⟨"dir/img.png", "PNG"⟩).2.writer.output
        = ("--B\r\nContent-Disposition: form-data; name=\"image\"; filename=\"dir/img.png\"\r\nContent-Type: application/octet-stream\r\n\r\nPNG").data))
    ∧ containsSeq ("filename=\"img.png\"").data
        (((NewFormBuilder "B").CreateFormFile "image" ⟨"dir/img.png", "PNG"⟩).2.writer.output) = false
    ∧ containsSeq ("filename=\"dir/img.png\"").data
        (((NewFormBuilder "B").CreateFormFile "image" ⟨"dir/img.png", "PNG"⟩).2.writer.output) = true
    ∧ filepathBase "dir/img.png" = "img.png" := by
  decide

/-- C6 amended: for every file handle with a non-empty Name(), CreateFormFile
succeeds and writes the escaped Name() itself as the filename attribute (no
directory prefix is stripped), with Content-Type
application/octet-stream. -/
theorem c6_amended_filename_is_file_name (fb : DefaultFormBuilder)
    (fn : String) (file : GoFile) (h : file.name ≠ "") :
    ((fb.CreateFormFile fn file).1 = none)
    ∧ (fb.CreateFormFile fn file).2.writer.output
        = fb.writer.output ++ (if fb.writer.hasLastPart then crlf else [])
          ++ chunkCore fb.writer.boundary
              ([("Content-Disposition",
                  "form-data; name=\"" ++ escapeQuotes fn ++ "\"; filename=\"" ++
                    escapeQuotes file.name ++ "\""),
                ("Content-Type", "application/octet-stream")], file.content) := by
  constructor
  · simp [DefaultFormBuilder.CreateFormFile, DefaultFormBuilder.createFormFile, h]
  · simp [DefaultFormBuilder.CreateFormFile, DefaultFormBuilder.createFormFile, h,
      multipartCreateFormFile, partWrite, createPart, chunkCore, List.append_assoc]

/-- Witness for C6 amended at a concrete file handle carrying a directory
prefix in its name. -/
theorem c6_amended_filename_is_file_name_witness :
    (((NewFormBuilder "B").CreateFormFile "image" ⟨"dir/img.png", "PNG"⟩).1 = none)
    ∧ ((NewFormBuilder "B").CreateFormFile "image" ⟨"dir/img.png", "PNG"⟩).2.writer.output
        = (NewFormBuilder "B").writer.output
          ++ (if (NewFormBuilder "B").writer.hasLastPart then crlf else [])
          ++ chunkCore (NewFormBuilder "B").writer.boundary
              ([("Content-Disposition",
                  "form-data; name=\"" ++ escapeQuotes "image" ++ "\"; filename=\"" ++
                    escapeQuotes (GoFile.mk "dir/img.png" "PNG").name ++ "\""),
                ("Content-Type", "application/octet-stream")],
               (GoFile.mk "dir/img.png" "PNG").content) :=
  c6_amended_filename_is_file_name (NewFormBuilder "B") "image" ⟨"dir/img.png", "PNG"⟩
    (by decide)

/-- C7: the filesystem-path variant rejects an empty resolved filename: the
call returns the "filename cannot be empty" validation error and leaves the
builder (and its sink) exactly as it was, writing no part. -/
theorem c7_empty_filename_rejected (fb : DefaultFormBuilder)
    (fn : String) (file : GoFile) (h : file.name = "") :
    fb.CreateFormFile fn file = (some "filename cannot be empty", fb) := by
  simp [DefaultFormBuilder.CreateFormFile, DefaultFormBuilder.createFormFile, h]

/-- Witness for C7 at a concrete file handle with an empty name. -/
theorem c7_empty_filename_rejected_witness :
    (NewFormBuilder "B").CreateFormFile "image" ⟨"", "bytes"⟩
      = (some "filename cannot be empty", NewFormBuilder "B") :=
  c7_empty_filename_rejected (NewFormBuilder "B") "image" ⟨"", "bytes"⟩ rfl

/-- C9: CreateMultiEditImage with an empty image list hits the early return:
it yields the zero-valued ImageResponse and a nil error without building any
form or issuing any HTTP request. -/
theorem c9_empty_images_no_request (b : String) (req : MultiImageEditRequest)
    (h : req.images = []) :
    CreateMultiEditImage b req = MultiEditOutcome.noRequest := by
  unfold CreateMultiEditImage
  rw [h]

/-- Witness for C9 at a concrete request with no images. -/
theorem c9_empty_images_no_request_witness :
    CreateMultiEditImage "B"
        { images := [], prompt := "p", model := "m", n := 2, size := "256x256",
          responseFormat := "url", quality := "hd", user := "u" }
      = MultiEditOutcome.noRequest :=
  c9_empty_images_no_request "B"
    { images := [], prompt := "p", model := "m", n := 2, size := "256x256",
      responseFormat := "url", quality := "hd", user := "u" } rfl

/-- C3: a reader-based file append carries a Content-Type header exactly when
the supplied content type parses as a well-formed media type, in which case
the header value is the parsed media type; when parsing fails the header is
omitted and the call still returns a nil error. Concretely, image/png is
accepted as image/png and not/a/valid/type;;; is dropped. -/
theorem c3_content_type_iff_valid (fb : DefaultFormBuilder) (fn r f ct : String) :
    ((fb.CreateFormFileReaderWithContentType fn r f ct).1 = none)
    ∧ (∀ mt : String,
        (("Content-Type", mt) ∈ fileReaderHeader fn f ct ↔ parseMediaType ct = some mt))
    ∧ ((fb.CreateFormFileReaderWithContentType fn r f ct).2.writer.output
        = fb.writer.output ++ (if fb.writer.hasLastPart then crlf else [])
          ++ chunkCore fb.writer.boundary (fileReaderHeader fn f ct, r))
    ∧ parseMediaType "image/png" = some "image/png"
    ∧ parseMediaType "not/a/valid/type;;;" = none := by
  refine ⟨rfl, ?_, ?_, by decide, by decide⟩
  · intro mt
    unfold fileReaderHeader
    cases h : parseMediaType ct with
    | none => simp
    | some mt0 =>
      simp only [List.mem_append, List.mem_singleton, Prod.mk.injEq, Option.some.injEq]
      constructor
      · rintro (⟨hk, _⟩ | ⟨_, hv⟩)
        · exact absurd hk (by decide)
        · exact hv.symm
      · intro hv
        exact Or.inr ⟨trivial, hv.symm⟩
  · simp [DefaultFormBuilder.CreateFormFileReaderWithContentType, partWrite, createPart,
      chunkCore, List.append_assoc]

/-- C5: running any non-empty sequence of append calls from a fresh builder
and closing yields exactly the spec's stream: one separately encoded part per
append call, in call order, followed by the terminal marker; the number of
encoded parts equals the number of calls. -/
theorem c5_parts_in_call_order (b : String) (ops : List FormOp) (h : ops ≠ []) :
    (((runOps (NewFormBuilder b) ops).Close).2.writer.output
      = multipartBody b (ops.map opPart))
    ∧ (ops.map opPart).length = ops.length := by
  refine ⟨?_, by simp⟩
  cases ops with
  | nil => exact absurd rfl h
  | cons op rest =>
    have h1 := applyOp_spec (NewFormBuilder b) op
    have h2 := runOps_spec rest (applyOp (NewFormBuilder b) op) h1.2.2
    have hfirst : (applyOp (NewFormBuilder b) op).writer.output
        = chunkCore b (opPart op) := by
      have := h1.1
      simpa [NewFormBuilder, multipartNewWriter] using this
    have hbder : (applyOp (NewFormBuilder b) op).writer.boundary = b := h1.2.1
    have hclose : (((runOps (NewFormBuilder b) (op :: rest)).Close).2.writer.output)
        = (runOps (NewFormBuilder b) (op :: rest)).writer.output ++ crlf ++ twoDash
          ++ (runOps (NewFormBuilder b) (op :: rest)).writer.boundary.data
          ++ twoDash ++ crlf := rfl
    have hrun : runOps (NewFormBuilder b) (op :: rest)
        = runOps (applyOp (NewFormBuilder b) op) rest := rfl
    rw [hclose, hrun, h2.1, h2.2.1, hfirst, hbder]
    simp only [multipartBody, List.map_cons, List.flatten_cons, partChunk, List.map_map,
      Function.comp_def, List.append_assoc]
    rw [flatten_sep_rotate (fun o => chunkCore b (opPart o)) crlf
      (twoDash ++ (b.data ++ (twoDash ++ crlf))) rest]

/-- Witness for C5 at three file parts appended under the same field name
image[], as CreateMultiEditImage does. -/
theorem c5_parts_in_call_order_witness :
    (((runOps (NewFormBuilder "BND")
        [FormOp.fileReader "image[]" "IMG1" "" "image/png",
         FormOp.fileReader "image[]" "IMG2" "" "image/png",
         FormOp.fileReader "image[]" "IMG3" "" "image/png"]).Close).2.writer.output
      = multipartBody "BND"
          ([FormOp.fileReader "image[]" "IMG1" "" "image/png",
            FormOp.fileReader "image[]" "IMG2" "" "image/png",
            FormOp.fileReader "image[]" "IMG3" "" "image/png"].map opPart))
    ∧ ([FormOp.fileReader "image[]" "IMG1" "" "image/png",
        FormOp.fileReader "image[]" "IMG2" "" "image/png",
        FormOp.fileReader "image[]" "IMG3" "" "image/png"].map opPart).length
      = [FormOp.fileReader "image[]" "IMG1" "" "image/png",
         FormOp.fileReader "image[]" "IMG2" "" "image/png",
         FormOp.fileReader "image[]" "IMG3" "" "image/png"].length :=
  c5_parts_in_call_order "BND"
    [FormOp.fileReader "image[]" "IMG1" "" "image/png",
     FormOp.fileReader "image[]" "IMG2" "" "image/png",
     FormOp.fileReader "image[]" "IMG3" "" "image/png"] (by decide)

/-- C8: after any sequence of builder calls, FormDataContentType is the string
multipart/form-data parameterized with the boundary fixed at construction
(the same value no matter when it is read), Close writes the terminal marker
built from that same boundary, and every part append delimits the part with
that same boundary. -/
theorem c8_boundary_fixed_and_content_type (b : String) (ops : List BuilderOp) :
    ((runBuilderOps (NewFormBuilder b) ops).writer.boundary = b)
    ∧ ((runBuilderOps (NewFormBuilder b) ops).FormDataContentType
        = (NewFormBuilder b).FormDataContentType)
    ∧ ((runBuilderOps (NewFormBuilder b) ops).FormDataContentType
        = "multipart/form-data; boundary=" ++ goQuoteBoundary b)
    ∧ (((runBuilderOps (NewFormBuilder b) ops).Close).2.writer.output
        = (runBuilderOps (NewFormBuilder b) ops).writer.output
          ++ crlf ++ twoDash ++ b.data ++ twoDash ++ crlf)
    ∧ (∀ fn r f ct : String,
        ((runBuilderOps (NewFormBuilder b) ops).CreateFormFileReaderWithContentType
            fn r f ct).2.writer.output
          = (runBuilderOps (NewFormBuilder b) ops).writer.output
            ++ (if (runBuilderOps (NewFormBuilder b) ops).writer.hasLastPart then crlf else [])
            ++ twoDash ++ b.data ++ crlf
            ++ hdrBytes (fileReaderHeader fn f ct) ++ crlf ++ r.data) := by
  have hbd : (runBuilderOps (NewFormBuilder b) ops).writer.boundary = b :=
    runBuilderOps_boundary ops (NewFormBuilder b)
  refine ⟨hbd, ?_, ?_, ?_, ?_⟩
  · simp only [DefaultFormBuilder.FormDataContentType, formDataContentType]
    rw [hbd]
    rfl
  · simp only [DefaultFormBuilder.FormDataContentType, formDataContentType]
    rw [hbd]
  · simp [DefaultFormBuilder.Close, writerClose, hbd, List.append_assoc]
  · intro fn r f ct
    simp [DefaultFormBuilder.CreateFormFileReaderWithContentType, partWrite, createPart,
      hbd, List.append_assoc]

/-- C10: the field names CreateEditImage and CreateMultiEditImage write are
exactly the image part(s), the optional mask part, prompt, n, size and (only
when non-empty) response_format; quality and user are never among them. -/
theorem c10_fields_written (req : ImageEditRequest) (mreq : MultiImageEditRequest) :
    (opsFieldNames (createEditImageOps req)
      = ["image"] ++ (match req.mask with | some _ => ["mask"] | none => [])
        ++ ["prompt", "n", "size"]
        ++ (if req.responseFormat = "" then [] else ["response_format"]))
    ∧ ("quality" ∉ opsFieldNames (createEditImageOps req))
    ∧ ("user" ∉ opsFieldNames (createEditImageOps req))
    ∧ (opsFieldNames (createMultiEditImageOps mreq)
      = (mreq.images.map (fun _ => "image[]"))
        ++ ["prompt", "n", "size"]
        ++ (if mreq.responseFormat = "" then [] else ["response_format"]))
    ∧ ("quality" ∉ opsFieldNames (createMultiEditImageOps mreq))
    ∧ ("user" ∉ opsFieldNames (createMultiEditImageOps mreq)) := by
  refine ⟨?_, ?_, ?_, ?_, ?_, ?_⟩
  · cases hm : req.mask <;> by_cases hr : req.responseFormat = "" <;>
      simp [createEditImageOps, opsFieldNames, opFieldName, hm, hr]
  · cases hm : req.mask <;> by_cases hr : req.responseFormat = "" <;>
      simp [createEditImageOps, opsFieldNames, opFieldName, hm, hr]
  · cases hm : req.mask <;> by_cases hr : req.responseFormat = "" <;>
      simp [createEditImageOps, opsFieldNames, opFieldName, hm, hr]
  · by_cases hr : mreq.responseFormat = "" <;>
      simp [createMultiEditImageOps, opsFieldNames, opFieldName, hr, List.map_map,
        Function.comp_def]
  · by_cases hr : mreq.responseFormat = "" <;>
      simp [createMultiEditImageOps, opsFieldNames, opFieldName, hr, List.map_map,
        Function.comp_def, List.mem_map]
  · by_cases hr : mreq.responseFormat = "" <;>
      simp [createMultiEditImageOps, opsFieldNames, opFieldName, hr, List.map_map,
        Function.comp_def, List.mem_map]
